import Mathlib

/-!
Shallow embedding of the DocHelper AI-proxy server (`server.js`):
the Groq client lifecycle (initialization with bounded retry), the
`/health`, `/api/suggest` and `/api/format` endpoint handlers, and the
error-classification logic in their catch blocks.

JavaScript values relevant to the handlers are modelled explicitly:
request-body fields are `JsVal` (capturing JS truthiness and the fact
that `.length` on a non-string is `undefined`), thrown errors are
`JsErr` with an optional `message` property, and the optional-chained
retryability check yields `Option Bool` (`none` models `undefined`,
which is dropped by JSON serialization).
-/

namespace DocHelper

/-- Groq client handle as constructed by `new Groq({apiKey, timeout})`. -/
structure GroqClient where
  apiKey : String
  timeout : Nat
  deriving DecidableEq, Repr

/-- Process-wide mutable state of server.js: the shared client handle
`groq` and the global `initializationAttempts` counter. -/
structure ServerState where
  groq : Option GroqClient
  initializationAttempts : Nat
  deriving DecidableEq, Repr

/-- `const MAX_INITIALIZATION_ATTEMPTS = 3`. -/
def MAX_INITIALIZATION_ATTEMPTS : Nat := 3

/-- Model of a JavaScript value that may appear in `req.body.text`. -/
inductive JsVal where
  | undef
  | null
  | str (s : String)
  | num (n : Int)
  | boolean (b : Bool)
  deriving DecidableEq, Repr

/-- JavaScript truthiness of a `JsVal` (`!text` is this negated). -/
def jsTruthy : JsVal → Bool
  | .undef => false
  | .null => false
  | .str s => s ≠ ""
  | .num n => n ≠ 0
  | .boolean b => b

/-- JavaScript `.length` of a value: a string has its length, any other
modelled value has no `length` property (reads as `undefined`). -/
def jsLength : JsVal → Option Nat
  | .str s => some s.length
  | _ => none

/-- The check `text.length > 32000`: comparing `undefined > 32000` in JS
is `false`, so only a string can fail the length check. -/
def jsLengthGT (v : JsVal) (bound : Nat) : Bool :=
  match jsLength v with
  | some l => decide (l > bound)
  | none => false

/-- JavaScript string interpolation of a value into a template literal. -/
def jsToString : JsVal → String
  | .undef => "undefined"
  | .null => "null"
  | .str s => s
  | .num n => toString n
  | .boolean b => if b then "true" else "false"

/-- A thrown JavaScript error value: it may or may not carry a
`message` property. -/
structure JsErr where
  message : Option String
  deriving DecidableEq, Repr

/-- JavaScript `String.prototype.includes`: case-sensitive substring test. -/
def jsIncludes (s pat : String) : Bool :=
  decide (pat.data <:+: s.data)

/-- Outcome of the awaited `groq.chat.completions.create(...)` call:
either it resolves (with the value of `completion.choices[0]?.message?.content`,
`none` modelling a missing choice/message/content) or it throws. -/
inductive ProviderOutcome where
  | ok (content : Option String)
  | thrown (e : JsErr)
  deriving DecidableEq, Repr

/-- One chat message in the provider request payload. -/
structure ChatMessage where
  role : String
  content : String
  deriving DecidableEq, Repr

/-- The request object passed to `groq.chat.completions.create`. -/
structure ChatRequest where
  messages : List ChatMessage
  model : String
  temperature : ℚ
  max_tokens : Nat
  top_p : ℚ
  stream : Bool
  deriving DecidableEq, Repr

/-- JSON response bodies the server can produce. In `aiError`, the
`retryable` field is `Option Bool`: `none` models the JS value
`undefined`, which `res.json` omits from the serialized body. -/
inductive RespBody where
  | plainErr (error message : String)
  | aiError (error message : String) (retryable : Option Bool)
  | suggestion (s : String)
  | formatted (s : String)
  | health (server aiService : String) (aiError : Option String) (timestamp : String)
  deriving DecidableEq, Repr

/-- An HTTP response: status code and JSON body. -/
structure Response where
  status : Nat
  body : RespBody
  deriving DecidableEq, Repr

/-- `initializeGroq`: if `process.env.GROQ_API_KEY` is unset or empty
(falsy), it throws internally, catches, logs and returns `false` with
the state untouched; otherwise it constructs a client with a 30000 ms
timeout, stores it in the shared handle and returns `true`. The
environment is modelled as `Option String` (`none` = variable unset). -/
def initializeGroq (env : Option String) (s : ServerState) : ServerState × Bool :=
  match env with
  | none => (s, false)
  | some key =>
    if key = "" then (s, false)
    else ({ s with groq := some { apiKey := key, timeout := 30000 } }, true)

/-- Result of one invocation of `initializeGroqWithRetry`: the state it
leaves behind, how many times it called `initializeGroq`, and the list
of `setTimeout` delays (ms) it awaited, in order. -/
structure RetryResult where
  state : ServerState
  initCalls : Nat
  delays : List Nat
  deriving DecidableEq, Repr

/-- Body of the `while` loop of `initializeGroqWithRetry`, written by
structural recursion on the remaining-iteration budget `fuel`. The loop
guard `initializationAttempts < MAX_INITIALIZATION_ATTEMPTS && !groq` is
re-checked each iteration exactly as in the source; each failing
iteration increments the counter, so from attempt count `a` the loop can
run at most `MAX_INITIALIZATION_ATTEMPTS - a` times, which is the fuel
`initializeGroqWithRetry` supplies. -/
def retryLoop (env : Option String) : Nat → ServerState → RetryResult
  | 0, s => ⟨s, 0, []⟩
  | fuel + 1, s =>
    if s.initializationAttempts < MAX_INITIALIZATION_ATTEMPTS ∧ s.groq = none then
      match initializeGroq env s with
      | (s1, true) => ⟨s1, 1, []⟩
      | (s1, false) =>
        let rest := retryLoop env fuel
          { groq := s1.groq, initializationAttempts := s1.initializationAttempts + 1 }
        ⟨rest.state, rest.initCalls + 1, 1000 * (s1.initializationAttempts + 1) :: rest.delays⟩
    else ⟨s, 0, []⟩

/-- `initializeGroqWithRetry`: `while (initializationAttempts < MAX && !groq)`,
call `initializeGroq()`; on success `break`; on failure increment the
counter and `await setTimeout(1000 * initializationAttempts)` (the
counter already incremented). -/
def initializeGroqWithRetry (env : Option String) (s : ServerState) : RetryResult :=
  retryLoop env (MAX_INITIALIZATION_ATTEMPTS - s.initializationAttempts) s

/-- `GET /health` handler: always 200, reports client presence and, when
absent, the attempt count reached. -/
def getHealth (s : ServerState) (timestamp : String) : Response :=
  { status := 200
    body := .health "healthy"
      (if s.groq.isSome then "available" else "unavailable")
      (if s.groq.isSome then none
       else some ("AI service not initialized after " ++
                  toString s.initializationAttempts ++ " attempts"))
      timestamp }

/-- The retryability test in both catch blocks:
`error.message?.includes('timeout') || error.message?.includes('rate limit') || error.message?.includes('connection')`.
When `message` is absent each optional-chained call is `undefined` and the
whole disjunction evaluates to `undefined`, modelled as `none`. -/
def isRetryableError (e : JsErr) : Option Bool :=
  match e.message with
  | some m => some (jsIncludes m "timeout" || jsIncludes m "rate limit" || jsIncludes m "connection")
  | none => none

/-- The catch-block response: status `isRetryableError ? 503 : 500`
(`undefined` is falsy), body `{error: "AI service error",
message: error.message || fallback, retryable: isRetryableError}`. -/
def catchResponse (fallback : String) (e : JsErr) : Response :=
  { status := if isRetryableError e = some true then 503 else 500
    body := .aiError "AI service error"
      (match e.message with
       | some m => if m = "" then fallback else m
       | none => fallback)
      (isRetryableError e) }

/-- The fixed user prompt of `/api/suggest` up to the interpolated text. -/
def suggestPreamble : String :=
  "You are DocHelper AI, a professional document assistant. Please help improve the following text while maintaining its core meaning and professional tone. Focus on clarity, conciseness, and proper formatting. If the text appears to be a specific document type (e.g., resume, contract, letter), apply appropriate formatting and style conventions for that type:\n\n"

/-- The system message of `/api/suggest`. -/
def suggestSystemContent : String :=
  "You are DocHelper AI, a professional document assistant focused on improving text while maintaining meaning and tone. You excel at identifying document types and applying appropriate formatting and style conventions."

/-- The provider request built by `/api/suggest` for interpolated text `t`. -/
def suggestRequest (t : String) : ChatRequest :=
  { messages :=
      [ { role := "system", content := suggestSystemContent }
      , { role := "user", content := suggestPreamble ++ t } ]
    model := "mixtral-8x7b-32768"
    temperature := 0.7
    max_tokens := 32768
    top_p := 1
    stream := false }

/-- The fixed user prompt of `/api/format` up to the interpolated text. -/
def formatPreamble : String :=
  "You are DocHelper AI, a professional document formatter. Please format the following text to improve its structure and readability. Apply the following formatting guidelines:\n\n1. Use appropriate headings and subheadings\n2. Organize content into logical paragraphs\n3. Use bullet points or numbered lists where appropriate\n4. Add proper spacing between sections\n5. Maintain consistent formatting throughout\n6. If the text is a specific document type (e.g., resume, contract), apply standard formatting conventions\n\nText to format:\n\n"

/-- The system message of `/api/format`. -/
def formatSystemContent : String :=
  "You are DocHelper AI, a professional document formatter focused on improving document structure, readability, and applying appropriate formatting conventions based on document type."

/-- The provider request built by `/api/format` for interpolated text `t`. -/
def formatRequest (t : String) : ChatRequest :=
  { messages :=
      [ { role := "system", content := formatSystemContent }
      , { role := "user", content := formatPreamble ++ t } ]
    model := "mixtral-8x7b-32768"
    temperature := 0.5
    max_tokens := 32768
    top_p := 1
    stream := false }

/-- Result of a suggest/format handler invocation: the state left behind,
the provider request it submitted (if validation passed), and the HTTP
response it sent. -/
structure HandlerResult where
  state : ServerState
  request : Option ChatRequest
  response : Response
  deriving DecidableEq, Repr

/-- The state after the lazy reinitialization pass at the top of a
suggest/format handler: `if (!groq) { await initializeGroqWithRetry(); }`. -/
def effState (env : Option String) (s : ServerState) : ServerState :=
  if s.groq = none then (initializeGroqWithRetry env s).state else s

/-- `POST /api/suggest` handler, parametrized by the environment, the
current server state, the request body's `text` field and the outcome of
the provider call (consulted only if validation passes). -/
def apiSuggest (env : Option String) (s : ServerState) (text : JsVal)
    (pr : ProviderOutcome) : HandlerResult :=
  let s1 := effState env s
  if s1.groq = none then
    ⟨s1, none, ⟨503, .plainErr "AI service unavailable"
      "The AI service is not properly initialized. Please try again later."⟩⟩
  else if ¬ jsTruthy text then
    ⟨s1, none, ⟨400, .plainErr "Missing text" "Please provide text to get suggestions"⟩⟩
  else if jsLengthGT text 32000 then
    ⟨s1, none, ⟨400, .plainErr "Text too long" "The provided text exceeds the maximum length limit"⟩⟩
  else
    let req := suggestRequest (jsToString text)
    match pr with
    | .thrown e => ⟨s1, some req, catchResponse "Failed to generate suggestion" e⟩
    | .ok content =>
      match content with
      | some c =>
        if c = "" then
          ⟨s1, some req, catchResponse "Failed to generate suggestion" ⟨some "No suggestion generated"⟩⟩
        else
          ⟨s1, some req, ⟨200, .suggestion c⟩⟩
      | none =>
        ⟨s1, some req, catchResponse "Failed to generate suggestion" ⟨some "No suggestion generated"⟩⟩

/-- `POST /api/format` handler, same shape as `/api/suggest` but with its
own prompt, temperature and messages. -/
def apiFormat (env : Option String) (s : ServerState) (text : JsVal)
    (pr : ProviderOutcome) : HandlerResult :=
  let s1 := effState env s
  if s1.groq = none then
    ⟨s1, none, ⟨503, .plainErr "AI service unavailable"
      "The AI service is not properly initialized. Please try again later."⟩⟩
  else if ¬ jsTruthy text then
    ⟨s1, none, ⟨400, .plainErr "Missing text" "Please provide text to format"⟩⟩
  else if jsLengthGT text 32000 then
    ⟨s1, none, ⟨400, .plainErr "Text too long" "The provided text exceeds the maximum length limit"⟩⟩
  else
    let req := formatRequest (jsToString text)
    match pr with
    | .thrown e => ⟨s1, some req, catchResponse "Failed to format text" e⟩
    | .ok content =>
      match content with
      | some c =>
        if c = "" then
          ⟨s1, some req, catchResponse "Failed to format text" ⟨some "No formatted text generated"⟩⟩
        else
          ⟨s1, some req, ⟨200, .formatted c⟩⟩
      | none =>
        ⟨s1, some req, catchResponse "Failed to format text" ⟨some "No formatted text generated"⟩⟩

/-- An incoming API request event, for reasoning about request sequences. -/
inductive Event where
  | suggest (text : JsVal) (pr : ProviderOutcome)
  | format (text : JsVal) (pr : ProviderOutcome)
  deriving DecidableEq, Repr

/-- Dispatch one event through its handler. -/
def stepEvent (env : Option String) (s : ServerState) : Event → ServerState × Response
  | .suggest text pr =>
    let r := apiSuggest env s text pr
    (r.state, r.response)
  | .format text pr =>
    let r := apiFormat env s text pr
    (r.state, r.response)

/-- Run a sequence of events, threading the server state. -/
def runEvents (env : Option String) (s : ServerState) : List Event → ServerState × List Response
  | [] => (s, [])
  | ev :: evs =>
    let (s1, r) := stepEvent env s ev
    let (s2, rs) := runEvents env s1 evs
    (s2, r :: rs)

/-! Helper lemmas about the initialization functions. -/

theorem initializeGroq_fail_state (env : Option String) (s s1 : ServerState)
    (hf : initializeGroq env s = (s1, false)) : s1 = s := by
  cases env with
  | none => simpa [initializeGroq] using hf.symm
  | some key =>
    by_cases h : key = ""
    · simpa [initializeGroq, h] using hf.symm
    · simp [initializeGroq, h] at hf

theorem initializeGroq_snd_indep (env : Option String) (s t : ServerState) :
    (initializeGroq env s).2 = (initializeGroq env t).2 := by
  cases env with
  | none => rfl
  | some key => by_cases h : key = "" <;> simp [initializeGroq, h]

theorem retry_guard_false (env : Option String) (s : ServerState)
    (h : ¬ (s.initializationAttempts < MAX_INITIALIZATION_ATTEMPTS ∧ s.groq = none)) :
    initializeGroqWithRetry env s = ⟨s, 0, []⟩ := by
  unfold initializeGroqWithRetry
  by_cases hlt : s.initializationAttempts < MAX_INITIALIZATION_ATTEMPTS
  · have hfuel : MAX_INITIALIZATION_ATTEMPTS - s.initializationAttempts =
        (MAX_INITIALIZATION_ATTEMPTS - s.initializationAttempts - 1) + 1 := by omega
    rw [hfuel]
    simp only [retryLoop]
    rw [if_neg h]
  · have hfuel : MAX_INITIALIZATION_ATTEMPTS - s.initializationAttempts = 0 := by omega
    rw [hfuel]
    rfl

theorem retry_success_step (env : Option String) (s s1 : ServerState)
    (h1 : s.initializationAttempts < MAX_INITIALIZATION_ATTEMPTS) (h2 : s.groq = none)
    (hs : initializeGroq env s = (s1, true)) :
    initializeGroqWithRetry env s = ⟨s1, 1, []⟩ := by
  unfold initializeGroqWithRetry
  have hfuel : MAX_INITIALIZATION_ATTEMPTS - s.initializationAttempts =
      (MAX_INITIALIZATION_ATTEMPTS - s.initializationAttempts - 1) + 1 := by omega
  rw [hfuel]
  simp only [retryLoop]
  rw [if_pos ⟨h1, h2⟩, hs]

theorem retry_fail_step (env : Option String) (s : ServerState)
    (h1 : s.initializationAttempts < MAX_INITIALIZATION_ATTEMPTS) (h2 : s.groq = none)
    (hf : (initializeGroq env s).2 = false) :
    initializeGroqWithRetry env s =
      ⟨(initializeGroqWithRetry env ⟨none, s.initializationAttempts + 1⟩).state,
       (initializeGroqWithRetry env ⟨none, s.initializationAttempts + 1⟩).initCalls + 1,
       1000 * (s.initializationAttempts + 1) ::
         (initializeGroqWithRetry env ⟨none, s.initializationAttempts + 1⟩).delays⟩ := by
  have hpair : initializeGroq env s = (s, false) := by
    have := initializeGroq_fail_state env s (initializeGroq env s).1
    rcases hp : initializeGroq env s with ⟨s1, b⟩
    rw [hp] at hf
    simp at hf
    subst hf
    have := initializeGroq_fail_state env s s1 hp
    rw [this]
  unfold initializeGroqWithRetry
  have hfuel : MAX_INITIALIZATION_ATTEMPTS - s.initializationAttempts =
      (MAX_INITIALIZATION_ATTEMPTS - (s.initializationAttempts + 1)) + 1 := by omega
  rw [hfuel]
  simp only [retryLoop]
  rw [if_pos ⟨h1, h2⟩, hpair]
  simp [h2]

/-- C4: `initializeGroqWithRetry` loops while no client exists and the
attempt counter is below 3; each iteration calls `initializeGroq`; on
success it stops; on failure it increments the counter and waits
`1000 ms × attemptNumber` before the next attempt (1 s, 2 s, 3 s over a
fully failing run); once the cap is reached it returns silently with the
client still absent. -/
theorem c4_retry_mechanics (env : Option String) (s : ServerState) :
    (∀ s1 : ServerState, s.initializationAttempts < MAX_INITIALIZATION_ATTEMPTS →
        s.groq = none → initializeGroq env s = (s1, true) →
        initializeGroqWithRetry env s = ⟨s1, 1, []⟩)
  ∧ (s.initializationAttempts < MAX_INITIALIZATION_ATTEMPTS → s.groq = none →
        (initializeGroq env s).2 = false →
        initializeGroqWithRetry env s =
          ⟨(initializeGroqWithRetry env ⟨none, s.initializationAttempts + 1⟩).state,
           (initializeGroqWithRetry env ⟨none, s.initializationAttempts + 1⟩).initCalls + 1,
           1000 * (s.initializationAttempts + 1) ::
             (initializeGroqWithRetry env ⟨none, s.initializationAttempts + 1⟩).delays⟩)
  ∧ (MAX_INITIALIZATION_ATTEMPTS ≤ s.initializationAttempts →
        initializeGroqWithRetry env s = ⟨s, 0, []⟩)
  ∧ ((initializeGroq env ⟨none, 0⟩).2 = false →
        initializeGroqWithRetry env ⟨none, 0⟩ = ⟨⟨none, 3⟩, 3, [1000, 2000, 3000]⟩) := by
  refine ⟨fun s1 h1 h2 hs => retry_success_step env s s1 h1 h2 hs,
          fun h1 h2 hf => retry_fail_step env s h1 h2 hf,
          fun hge => retry_guard_false env s (by omega),
          fun hf => ?_⟩
  have hf1 : (initializeGroq env (⟨none, 1⟩ : ServerState)).2 = false := by
    rw [initializeGroq_snd_indep env ⟨none, 1⟩ ⟨none, 0⟩]; exact hf
  have hf2 : (initializeGroq env (⟨none, 2⟩ : ServerState)).2 = false := by
    rw [initializeGroq_snd_indep env ⟨none, 2⟩ ⟨none, 0⟩]; exact hf
  rw [retry_fail_step env ⟨none, 0⟩ (by decide) rfl hf]
  rw [retry_fail_step env ⟨none, 1⟩ (by decide) rfl hf1]
  rw [retry_fail_step env ⟨none, 2⟩ (by decide) rfl hf2]
  rw [retry_guard_false env ⟨none, 3⟩ (by decide)]
  rfl

/-- Witness for C4: a fully failing run (no API key) performs 3 attempts
with delays 1000, 2000, 3000 ms; a succeeding run stops after one call;
at the cap the function is a silent no-op. -/
theorem c4_retry_mechanics_witness :
    initializeGroqWithRetry none ⟨none, 0⟩ = ⟨⟨none, 3⟩, 3, [1000, 2000, 3000]⟩ ∧
    initializeGroqWithRetry (some "k") ⟨none, 0⟩ =
      ⟨⟨some ⟨"k", 30000⟩, 0⟩, 1, []⟩ ∧
    initializeGroqWithRetry none ⟨none, 3⟩ = ⟨⟨none, 3⟩, 0, []⟩ :=
  ⟨(c4_retry_mechanics none ⟨none, 0⟩).2.2.2 (by decide),
   (c4_retry_mechanics (some "k") ⟨none, 0⟩).1 ⟨some ⟨"k", 30000⟩, 0⟩ (by decide) rfl (by decide),
   (c4_retry_mechanics none ⟨none, 3⟩).2.2.1 (by decide)⟩

/-- C3: once the attempt counter has reached the cap with the client
still absent, `initializeGroqWithRetry` never attempts initialization
again (zero `initializeGroq` calls, state unchanged), and every
subsequent suggest/format request — each of which invokes the retry
helper — returns the 503 "AI service unavailable" response, for any
sequence of requests. -/
theorem c3_permanently_degraded (env : Option String) (s : ServerState) (evs : List Event)
    (hcap : MAX_INITIALIZATION_ATTEMPTS ≤ s.initializationAttempts) (habs : s.groq = none) :
    initializeGroqWithRetry env s = ⟨s, 0, []⟩ ∧
    runEvents env s evs =
      (s, evs.map fun _ => ⟨503, .plainErr "AI service unavailable"
        "The AI service is not properly initialized. Please try again later."⟩) := by
  have hretry : initializeGroqWithRetry env s = ⟨s, 0, []⟩ :=
    retry_guard_false env s (by omega)
  refine ⟨hretry, ?_⟩
  have heff : effState env s = s := by
    simp [effState, habs, hretry]
  induction evs with
  | nil => rfl
  | cons ev evs ih =>
    cases ev with
    | suggest text pr =>
      simp [runEvents, stepEvent, apiSuggest, heff, habs, ih]
    | format text pr =>
      simp [runEvents, stepEvent, apiFormat, heff, habs, ih]

/-- Witness for C3: with the counter at the cap and no client, two
subsequent requests (whatever their bodies and provider outcomes) both
yield the 503 unavailable response and leave the state unchanged. -/
theorem c3_permanently_degraded_witness :
    runEvents none ⟨none, 3⟩
        [.suggest (.str "hi") (.ok (some "ok")), .format (.str "x") (.thrown ⟨some "timeout"⟩)] =
      (⟨none, 3⟩,
       [⟨503, .plainErr "AI service unavailable"
          "The AI service is not properly initialized. Please try again later."⟩,
        ⟨503, .plainErr "AI service unavailable"
          "The AI service is not properly initialized. Please try again later."⟩]) :=
  (c3_permanently_degraded none ⟨none, 3⟩
    [.suggest (.str "hi") (.ok (some "ok")), .format (.str "x") (.thrown ⟨some "timeout"⟩)]
    (by decide) rfl).2

/-- C8: `initializeGroq` never lets an exception escape: when the API key
is absent (unset or empty, i.e. falsy) it returns `false` leaving the
state untouched; otherwise it constructs a client with the key and a
fixed 30000 ms timeout, stores it as the shared handle, and returns
`true`. -/
theorem c8_initialize_no_throw (env : Option String) (s : ServerState) :
    ((env = none ∨ env = some "") → initializeGroq env s = (s, false))
  ∧ (∀ key : String, env = some key → key ≠ "" →
      initializeGroq env s =
        ({ s with groq := some { apiKey := key, timeout := 30000 } }, true)) := by
  constructor
  · rintro (rfl | rfl) <;> simp [initializeGroq]
  · rintro key rfl hk
    simp [initializeGroq, hk]

/-- Witness for C8: missing key fails without touching the state; a
present key builds the 30-second-timeout client and succeeds. -/
theorem c8_initialize_no_throw_witness :
    initializeGroq none ⟨none, 0⟩ = (⟨none, 0⟩, false) ∧
    initializeGroq (some "sk-abc") ⟨none, 2⟩ =
      (⟨some ⟨"sk-abc", 30000⟩, 2⟩, true) :=
  ⟨(c8_initialize_no_throw none ⟨none, 0⟩).1 (Or.inl rfl),
   (c8_initialize_no_throw (some "sk-abc") ⟨none, 2⟩).2 "sk-abc" rfl (by decide)⟩

/-- C6: `GET /health` always responds 200 with body
`{server: "healthy", aiService, aiError, timestamp}`; `aiService` is
"available" with `aiError` null exactly when the client handle is
present; when absent, `aiService` is "unavailable" and `aiError` is a
non-null string reporting the attempt count reached. -/
theorem c6_health_endpoint (s : ServerState) (ts : String) :
    (getHealth s ts).status = 200 ∧
    ((getHealth s ts).body = .health "healthy" "available" none ts ↔ s.groq.isSome) ∧
    (s.groq = none →
      (getHealth s ts).body = .health "healthy" "unavailable"
        (some ("AI service not initialized after " ++
               toString s.initializationAttempts ++ " attempts")) ts) := by
  refine ⟨rfl, ?_, ?_⟩
  · cases hg : s.groq <;> simp [getHealth, hg]
  · intro hg
    simp [getHealth, hg]

/-- Witness for C6: with the client absent after 2 attempts, health is
200/unavailable with the attempt count in `aiError`; with a client
present it is 200/available with null `aiError`. -/
theorem c6_health_endpoint_witness :
    (getHealth ⟨none, 2⟩ "t").status = 200 ∧
    (getHealth ⟨none, 2⟩ "t").body = .health "healthy" "unavailable"
      (some ("AI service not initialized after " ++ toString (2 : Nat) ++ " attempts")) "t" ∧
    (getHealth ⟨some ⟨"k", 30000⟩, 0⟩ "u").body = .health "healthy" "available" none "u" :=
  ⟨(c6_health_endpoint ⟨none, 2⟩ "t").1,
   (c6_health_endpoint ⟨none, 2⟩ "t").2.2 rfl,
   (c6_health_endpoint ⟨some ⟨"k", 30000⟩, 0⟩ "u").2.1.mpr rfl⟩

/-- C2: validation order for both endpoints, first failing check wins:
(1) no client even after the on-demand retry pass → 503 "AI service
unavailable" regardless of the body; (2) otherwise falsy `text` → 400
"Missing text"; (3) otherwise a string strictly longer than 32000 → 400
"Text too long", while length exactly 32000 passes validation. -/
theorem c2_validation_order (env : Option String) (s : ServerState)
    (text : JsVal) (pr : ProviderOutcome) :
    ((effState env s).groq = none →
      (apiSuggest env s text pr).response = ⟨503, .plainErr "AI service unavailable"
        "The AI service is not properly initialized. Please try again later."⟩ ∧
      (apiFormat env s text pr).response = ⟨503, .plainErr "AI service unavailable"
        "The AI service is not properly initialized. Please try again later."⟩)
  ∧ ((effState env s).groq ≠ none → jsTruthy text = false →
      (apiSuggest env s text pr).response =
        ⟨400, .plainErr "Missing text" "Please provide text to get suggestions"⟩ ∧
      (apiFormat env s text pr).response =
        ⟨400, .plainErr "Missing text" "Please provide text to format"⟩)
  ∧ ((effState env s).groq ≠ none → ∀ t : String, text = .str t → 32000 < t.length →
      (apiSuggest env s text pr).response =
        ⟨400, .plainErr "Text too long" "The provided text exceeds the maximum length limit"⟩ ∧
      (apiFormat env s text pr).response =
        ⟨400, .plainErr "Text too long" "The provided text exceeds the maximum length limit"⟩)
  ∧ ((effState env s).groq ≠ none → ∀ t : String, text = .str t → t.length = 32000 →
      (apiSuggest env s text pr).request = some (suggestRequest t) ∧
      (apiFormat env s text pr).request = some (formatRequest t)) := by
  refine ⟨fun hg => ?_, fun hg ht => ?_, fun hg t hts hlen => ?_, fun hg t hts hlen => ?_⟩
  · constructor <;> simp [apiSuggest, apiFormat, hg]
  · constructor <;> simp [apiSuggest, apiFormat, hg, ht]
  · subst hts
    have ht : jsTruthy (.str t) = true := by
      simp [jsTruthy]
      intro h
      subst h
      simp at hlen
    have hl : jsLengthGT (.str t) 32000 = true := by
      simp [jsLengthGT, jsLength]
      omega
    constructor <;> simp [apiSuggest, apiFormat, hg, ht, hl]
  · subst hts
    have ht : jsTruthy (.str t) = true := by
      simp [jsTruthy]
      intro h
      subst h
      simp at hlen
    have hl : jsLengthGT (.str t) 32000 = false := by
      simp [jsLengthGT, jsLength]
      omega
    constructor <;>
      · simp only [apiSuggest, apiFormat, effState] at *
        simp [hg, ht, hl, jsToString]
        rcases pr with _ | e
        · rename_i content
          rcases content with _ | c
          · simp
          · by_cases hc : c = "" <;> simp [hc]
        · simp

/-- Witness for C2: with no key and no client every body gets 503; with
a client, empty text gets 400 "Missing text", a 32001-character string
gets 400 "Text too long", and a 32000-character string passes
validation and reaches the provider call. -/
theorem c2_validation_order_witness :
    ((apiSuggest none ⟨none, 3⟩ (.str "hi") (.ok (some "x"))).response =
      ⟨503, .plainErr "AI service unavailable"
        "The AI service is not properly initialized. Please try again later."⟩) ∧
    ((apiFormat (some "k") ⟨some ⟨"k", 30000⟩, 0⟩ (.str "") (.ok (some "x"))).response =
      ⟨400, .plainErr "Missing text" "Please provide text to format"⟩) ∧
    ((apiSuggest (some "k") ⟨some ⟨"k", 30000⟩, 0⟩
        (.str (String.mk (List.replicate 32001 'a'))) (.ok (some "x"))).response =
      ⟨400, .plainErr "Text too long" "The provided text exceeds the maximum length limit"⟩) ∧
    ((apiSuggest (some "k") ⟨some ⟨"k", 30000⟩, 0⟩
        (.str (String.mk (List.replicate 32000 'a'))) (.ok (some "x"))).request =
      some (suggestRequest (String.mk (List.replicate 32000 'a')))) :=
  ⟨((c2_validation_order none ⟨none, 3⟩ (.str "hi") (.ok (some "x"))).1 (by decide)).1,
   ((c2_validation_order (some "k") ⟨some ⟨"k", 30000⟩, 0⟩ (.str "") (.ok (some "x"))).2.1
      (by decide) (by decide)).2,
   ((c2_validation_order (some "k") ⟨some ⟨"k", 30000⟩, 0⟩
        (.str (String.mk (List.replicate 32001 'a'))) (.ok (some "x"))).2.2.1
      (by decide) (String.mk (List.replicate 32001 'a')) rfl
      (by show (32000 : Nat) < (List.replicate 32001 'a').length
          rw [List.length_replicate]
          omega)).1,
   ((c2_validation_order (some "k") ⟨some ⟨"k", 30000⟩, 0⟩
        (.str (String.mk (List.replicate 32000 'a'))) (.ok (some "x"))).2.2.2
      (by decide) (String.mk (List.replicate 32000 'a')) rfl
      (by show (List.replicate 32000 'a').length = 32000
          rw [List.length_replicate])).1⟩

/-- C1: for both endpoints, when the provider call throws an error
carrying a message, the response body is
`{error: "AI service error", message, retryable}` with status 503 and
`retryable:true` exactly when the message contains "timeout",
"rate limit" or "connection" as a case-sensitive substring, and status
500 with `retryable:false` otherwise. -/
theorem c1_thrown_error_classification (env : Option String) (s : ServerState)
    (text : JsVal) (e : JsErr) (m : String)
    (hg : (effState env s).groq ≠ none) (ht : jsTruthy text = true)
    (hl : jsLengthGT text 32000 = false) (hm : e.message = some m) :
    (apiSuggest env s text (.thrown e)).response =
      ⟨if jsIncludes m "timeout" || jsIncludes m "rate limit" || jsIncludes m "connection"
          then 503 else 500,
       .aiError "AI service error"
         (if m = "" then "Failed to generate suggestion" else m)
         (some (jsIncludes m "timeout" || jsIncludes m "rate limit" || jsIncludes m "connection"))⟩ ∧
    (apiFormat env s text (.thrown e)).response =
      ⟨if jsIncludes m "timeout" || jsIncludes m "rate limit" || jsIncludes m "connection"
          then 503 else 500,
       .aiError "AI service error"
         (if m = "" then "Failed to format text" else m)
         (some (jsIncludes m "timeout" || jsIncludes m "rate limit" || jsIncludes m "connection"))⟩ := by
  constructor <;>
    simp [apiSuggest, apiFormat, hg, ht, hl, catchResponse, isRetryableError, hm]

/-- Witness for C1: a "connection reset" provider error yields 503 with
`retryable:true` on suggest; a "boom" error yields 500 with
`retryable:false` on format. -/
theorem c1_thrown_error_classification_witness :
    (apiSuggest (some "k") ⟨some ⟨"k", 30000⟩, 0⟩ (.str "hi")
        (.thrown ⟨some "connection reset"⟩)).response =
      ⟨503, .aiError "AI service error" "connection reset" (some true)⟩ ∧
    (apiFormat (some "k") ⟨some ⟨"k", 30000⟩, 0⟩ (.str "hi")
        (.thrown ⟨some "boom"⟩)).response =
      ⟨500, .aiError "AI service error" "boom" (some false)⟩ := by
  constructor
  · rw [(c1_thrown_error_classification (some "k") ⟨some ⟨"k", 30000⟩, 0⟩ (.str "hi")
      ⟨some "connection reset"⟩ "connection reset" (by decide) (by decide) (by decide) rfl).1]
    decide
  · rw [(c1_thrown_error_classification (some "k") ⟨some ⟨"k", 30000⟩, 0⟩ (.str "hi")
      ⟨some "boom"⟩ "boom" (by decide) (by decide) (by decide) rfl).2]
    decide

theorem apiSuggest_request_eq (env : Option String) (s : ServerState)
    (text : JsVal) (pr : ProviderOutcome)
    (hg : (effState env s).groq ≠ none) (ht : jsTruthy text = true)
    (hl : jsLengthGT text 32000 = false) :
    (apiSuggest env s text pr).request = some (suggestRequest (jsToString text)) := by
  simp only [apiSuggest]
  rcases pr with content | e
  · rcases content with _ | c
    · simp [hg, ht, hl]
    · by_cases hc : c = "" <;> simp [hg, ht, hl, hc]
  · simp [hg, ht, hl]

theorem apiFormat_request_eq (env : Option String) (s : ServerState)
    (text : JsVal) (pr : ProviderOutcome)
    (hg : (effState env s).groq ≠ none) (ht : jsTruthy text = true)
    (hl : jsLengthGT text 32000 = false) :
    (apiFormat env s text pr).request = some (formatRequest (jsToString text)) := by
  simp only [apiFormat]
  rcases pr with content | e
  · rcases content with _ | c
    · simp [hg, ht, hl]
    · by_cases hc : c = "" <;> simp [hg, ht, hl, hc]
  · simp [hg, ht, hl]

/-- C5: on passing validation, `/api/suggest` submits a non-streaming
provider request with temperature 0.7 and max 32768 output tokens, and
`/api/format` submits one with temperature 0.5; given a provider
response whose first choice has non-empty content `c`, suggest returns
200 `{suggestion: c}` and format returns 200 `{formattedText: c}`. -/
theorem c5_provider_request_and_success (env : Option String) (s : ServerState)
    (text : JsVal) (pr : ProviderOutcome)
    (hg : (effState env s).groq ≠ none) (ht : jsTruthy text = true)
    (hl : jsLengthGT text 32000 = false) :
    (apiSuggest env s text pr).request = some (suggestRequest (jsToString text)) ∧
    (apiFormat env s text pr).request = some (formatRequest (jsToString text)) ∧
    (suggestRequest (jsToString text)).temperature = 0.7 ∧
    (suggestRequest (jsToString text)).max_tokens = 32768 ∧
    (suggestRequest (jsToString text)).stream = false ∧
    (formatRequest (jsToString text)).temperature = 0.5 ∧
    (∀ c : String, c ≠ "" →
      (apiSuggest env s text (.ok (some c))).response = ⟨200, .suggestion c⟩ ∧
      (apiFormat env s text (.ok (some c))).response = ⟨200, .formatted c⟩) := by
  refine ⟨apiSuggest_request_eq env s text pr hg ht hl,
          apiFormat_request_eq env s text pr hg ht hl,
          rfl, rfl, rfl, rfl, fun c hc => ⟨?_, ?_⟩⟩
  · simp [apiSuggest, hg, ht, hl, hc]
  · simp [apiFormat, hg, ht, hl, hc]

/-- Witness for C5: with a client present and valid text, the provider
response "Hello world." produces 200 bodies on both endpoints, and the
submitted suggest request carries temperature 0.7. -/
theorem c5_provider_request_and_success_witness :
    (apiSuggest (some "k") ⟨some ⟨"k", 30000⟩, 0⟩ (.str "helo wrld")
        (.ok (some "Hello world."))).response = ⟨200, .suggestion "Hello world."⟩ ∧
    (apiFormat (some "k") ⟨some ⟨"k", 30000⟩, 0⟩ (.str "helo wrld")
        (.ok (some "Hello world."))).response = ⟨200, .formatted "Hello world."⟩ ∧
    (suggestRequest (jsToString (.str "helo wrld"))).temperature = 0.7 :=
  ⟨((c5_provider_request_and_success (some "k") ⟨some ⟨"k", 30000⟩, 0⟩ (.str "helo wrld")
      (.ok (some "Hello world.")) (by decide) (by decide) (by decide)).2.2.2.2.2.2
      "Hello world." (by decide)).1,
   ((c5_provider_request_and_success (some "k") ⟨some ⟨"k", 30000⟩, 0⟩ (.str "helo wrld")
      (.ok (some "Hello world.")) (by decide) (by decide) (by decide)).2.2.2.2.2.2
      "Hello world." (by decide)).2,
   (c5_provider_request_and_success (some "k") ⟨some ⟨"k", 30000⟩, 0⟩ (.str "helo wrld")
      (.ok (some "Hello world.")) (by decide) (by decide) (by decide)).2.2.1⟩

/-- C7: if the provider call on `/api/suggest` succeeds but the first
choice's content is absent or empty, the handler takes the thrown-error
path with message "No suggestion generated", which contains none of the
retryable trigger substrings, so the response is 500 with
`retryable:false`. -/
theorem c7_empty_content_500 (env : Option String) (s : ServerState)
    (text : JsVal) (content : Option String)
    (hg : (effState env s).groq ≠ none) (ht : jsTruthy text = true)
    (hl : jsLengthGT text 32000 = false)
    (hc : content = none ∨ content = some "") :
    (apiSuggest env s text (.ok content)).response =
      ⟨500, .aiError "AI service error" "No suggestion generated" (some false)⟩ := by
  rcases hc with rfl | rfl <;>
    · simp [apiSuggest, hg, ht, hl]
      decide

/-- Witness for C7: a provider completion with missing content yields
the 500 "No suggestion generated" response. -/
theorem c7_empty_content_500_witness :
    (apiSuggest (some "k") ⟨some ⟨"k", 30000⟩, 0⟩ (.str "hi") (.ok none)).response =
      ⟨500, .aiError "AI service error" "No suggestion generated" (some false)⟩ :=
  c7_empty_content_500 (some "k") ⟨some ⟨"k", 30000⟩, 0⟩ (.str "hi") none
    (by decide) (by decide) (by decide) (Or.inl rfl)

theorem catchResponse_status (fb : String) (e : JsErr) :
    (catchResponse fb e).status = 503 ∨ (catchResponse fb e).status = 500 := by
  simp only [catchResponse]
  by_cases h : isRetryableError e = some true <;> simp [h]

/-- C9: a truthy non-string `text` (a number, `true`, ...) passes both
validation checks — the missing-text check because it is truthy, the
length check because a non-string has no `length` numerically above
32000 — so neither endpoint returns 400 and the stringified value is
interpolated into the user prompt of the submitted provider request. -/
theorem c9_nonstring_truthy_text (env : Option String) (s : ServerState)
    (text : JsVal) (pr : ProviderOutcome)
    (hg : (effState env s).groq ≠ none) (ht : jsTruthy text = true)
    (hns : ∀ t : String, text ≠ .str t) :
    jsLengthGT text 32000 = false ∧
    (apiSuggest env s text pr).request = some (suggestRequest (jsToString text)) ∧
    (apiFormat env s text pr).request = some (formatRequest (jsToString text)) ∧
    (apiSuggest env s text pr).response.status ≠ 400 ∧
    (apiFormat env s text pr).response.status ≠ 400 ∧
    (suggestRequest (jsToString text)).messages =
      [⟨"system", suggestSystemContent⟩, ⟨"user", suggestPreamble ++ jsToString text⟩] ∧
    (formatRequest (jsToString text)).messages =
      [⟨"system", formatSystemContent⟩, ⟨"user", formatPreamble ++ jsToString text⟩] := by
  have hl : jsLengthGT text 32000 = false := by
    cases text
    case str t => exact absurd rfl (hns t)
    all_goals rfl
  have hstat : ∀ fb e, (catchResponse fb e).status ≠ 400 := by
    intro fb e
    rcases catchResponse_status fb e with h | h <;> omega
  refine ⟨hl, apiSuggest_request_eq env s text pr hg ht hl,
          apiFormat_request_eq env s text pr hg ht hl, ?_, ?_, rfl, rfl⟩
  · simp only [apiSuggest]
    rcases pr with content | e
    · rcases content with _ | c
      · simp only [hg, ht, hl]
        simp [hg, ht, hl]
        exact hstat _ _
      · by_cases hc : c = ""
        · simp [hg, ht, hl, hc]
          exact hstat _ _
        · simp [hg, ht, hl, hc]
    · simp [hg, ht, hl]
      exact hstat _ _
  · simp only [apiFormat]
    rcases pr with content | e
    · rcases content with _ | c
      · simp [hg, ht, hl]
        exact hstat _ _
      · by_cases hc : c = ""
        · simp [hg, ht, hl, hc]
          exact hstat _ _
        · simp [hg, ht, hl, hc]
    · simp [hg, ht, hl]
      exact hstat _ _

/-- Witness for C9: `text = 42` and `text = true` pass validation; the
number is interpolated into the suggest prompt and neither endpoint
returns 400. -/
theorem c9_nonstring_truthy_text_witness :
    (apiSuggest (some "k") ⟨some ⟨"k", 30000⟩, 0⟩ (.num 42) (.ok (some "ok"))).request =
      some (suggestRequest (jsToString (.num 42))) ∧
    (apiSuggest (some "k") ⟨some ⟨"k", 30000⟩, 0⟩ (.num 42)
        (.ok (some "ok"))).response.status ≠ 400 ∧
    (apiFormat (some "k") ⟨some ⟨"k", 30000⟩, 0⟩ (.boolean true)
        (.thrown ⟨some "x"⟩)).response.status ≠ 400 :=
  ⟨(c9_nonstring_truthy_text (some "k") ⟨some ⟨"k", 30000⟩, 0⟩ (.num 42) (.ok (some "ok"))
      (by decide) (by decide) (fun t h => JsVal.noConfusion h)).2.1,
   (c9_nonstring_truthy_text (some "k") ⟨some ⟨"k", 30000⟩, 0⟩ (.num 42) (.ok (some "ok"))
      (by decide) (by decide) (fun t h => JsVal.noConfusion h)).2.2.2.1,
   (c9_nonstring_truthy_text (some "k") ⟨some ⟨"k", 30000⟩, 0⟩ (.boolean true)
      (.thrown ⟨some "x"⟩) (by decide) (by decide) (fun t h => JsVal.noConfusion h)).2.2.2.2.1⟩

/-- C10: when the thrown value has no `message` property, both endpoints
respond 500, the message falls back to the endpoint-specific default,
and `retryable` is the `undefined` result of the optional-chained checks
(modelled `none`), hence absent from the serialized JSON body. -/
theorem c10_message_absent (env : Option String) (s : ServerState)
    (text : JsVal) (e : JsErr)
    (hg : (effState env s).groq ≠ none) (ht : jsTruthy text = true)
    (hl : jsLengthGT text 32000 = false) (hm : e.message = none) :
    (apiSuggest env s text (.thrown e)).response =
      ⟨500, .aiError "AI service error" "Failed to generate suggestion" none⟩ ∧
    (apiFormat env s text (.thrown e)).response =
      ⟨500, .aiError "AI service error" "Failed to format text" none⟩ := by
  constructor <;>
    simp [apiSuggest, apiFormat, hg, ht, hl, catchResponse, isRetryableError, hm]

/-- Witness for C10: a thrown value without `message` produces the 500
fallback responses with no `retryable` field on both endpoints. -/
theorem c10_message_absent_witness :
    (apiSuggest (some "k") ⟨some ⟨"k", 30000⟩, 0⟩ (.str "hi") (.thrown ⟨none⟩)).response =
      ⟨500, .aiError "AI service error" "Failed to generate suggestion" none⟩ ∧
    (apiFormat (some "k") ⟨some ⟨"k", 30000⟩, 0⟩ (.str "hi") (.thrown ⟨none⟩)).response =
      ⟨500, .aiError "AI service error" "Failed to format text" none⟩ :=
  c10_message_absent (some "k") ⟨some ⟨"k", 30000⟩, 0⟩ (.str "hi") ⟨none⟩
    (by decide) (by decide) (by decide) rfl

end DocHelper
